import Mathlib

/-!
Shallow embedding of the Solana-Bank program (state.rs, validator.rs,
processor.rs) and proofs of the specification claims about it.

Modelling conventions:
* bytes are `Nat` (values < 256), byte buffers are `List Nat`;
* a Solana `Pubkey` is its 32-byte buffer;
* `u64` arithmetic sites of the source are modelled with explicit
  wrap-around (`wadd`, `wsub`, `wmul`, reduction mod 2^64);
* fallible Rust code returns `RustResult`, whose `panic` constructor
  models a Rust panic (`unwrap` on `None`/`Err`), kept distinct from a
  returned `ProgramError`;
* external runtime primitives that live outside this repository
  (program-derived-address computation, associated-token-account
  derivation) are passed in as explicit function parameters; cross-program
  invocations (system transfer, token transfer, memo) are modelled by
  their observable effect on the account state, with a dedicated error
  for a failing invocation;
* an instruction that returns an error reverts every account mutation
  (transaction atomicity of the runtime), so error outcomes carry the
  initial state.
-/

set_option maxRecDepth 100000

/-- Modulus of Rust `u64` arithmetic. -/
def U64MOD : Nat := 2 ^ 64

/-- Wrapping `u64` addition. -/
def wadd (a b : Nat) : Nat := (a + b) % U64MOD

/-- Wrapping `u64` subtraction (on representatives `< 2^64`). -/
def wsub (a b : Nat) : Nat := (a % U64MOD + (U64MOD - b % U64MOD)) % U64MOD

/-- Wrapping `u64` multiplication. -/
def wmul (a b : Nat) : Nat := (a * b) % U64MOD

/-- A Solana public key, as its 32-byte buffer. -/
abbrev Pubkey := List Nat

/-- The variants of `solana_program::program_error::ProgramError` reached by
this program, plus `ExternalCallFailed`, which models a cross-program
invocation (system transfer, token transfer, memo) failing for its own
reasons. -/
inductive ProgramError where
  | Custom (code : Nat)
  | InvalidAccountOwner
  | InvalidAccountData
  | InvalidSeeds
  | MissingRequiredSignature
  | NotEnoughAccountKeys
  | ExternalCallFailed
deriving DecidableEq

/-- The `BankError` enum of error.rs (`repr(u8)`, discriminants in
declaration order). -/
inductive BankError where
  | SignatureAlreadyUsed
  | MessageV1ValidationFailed
  | MessageV2ValidationFailed
  | InvalidToPubkey
  | InvalidLamports
  | InvalidMint
  | InvalidTokenAmount
  | InsufficientLamportBalance
  | FailedToGetEd25519Instruction
  | InvalidEd25519SignatureVerificationInstruction
  | InvalidMemoProgramAccount
  | InvalidSystemProgramAccount
  | InvalidSplTokenProgramAccount
  | InvalidMintAccount
  | InvalidBankAssociatedTokenAccount
deriving DecidableEq

/-- Discriminant of a `BankError` variant (the `as u32` cast of error.rs). -/
def BankError.code : BankError → Nat
  | .SignatureAlreadyUsed => 0
  | .MessageV1ValidationFailed => 1
  | .MessageV2ValidationFailed => 2
  | .InvalidToPubkey => 3
  | .InvalidLamports => 4
  | .InvalidMint => 5
  | .InvalidTokenAmount => 6
  | .InsufficientLamportBalance => 7
  | .FailedToGetEd25519Instruction => 8
  | .InvalidEd25519SignatureVerificationInstruction => 9
  | .InvalidMemoProgramAccount => 10
  | .InvalidSystemProgramAccount => 11
  | .InvalidSplTokenProgramAccount => 12
  | .InvalidMintAccount => 13
  | .InvalidBankAssociatedTokenAccount => 14

/-- Outcome of a piece of Rust code: a panic (a failed `unwrap`), a returned
`ProgramError`, or a value. -/
inductive RustResult (α : Type) where
  | panic
  | err (e : ProgramError)
  | ok (a : α)
deriving DecidableEq

/-- The bs58 alphabet used by `bs58::decode`. -/
def base58Alphabet : List Char :=
  "123456789ABCDEFGHJKLMNPQRSTUVWXYZabcdefghijkmnopqrstuvwxyz".toList

/-- Value of one base-58 digit character, `none` for a character outside the
alphabet. -/
def base58DigitOf (c : Char) : Option Nat :=
  base58Alphabet.findIdx? (fun a => a = c)

/-- Big-endian digit accumulation with explicit fuel (structural recursion,
so applications reduce definitionally); `fuel ≥ n` always suffices since
`n / 256 < n` for positive `n`. -/
def natToBytesBEAux : Nat → Nat → List Nat
  | 0, _ => []
  | fuel + 1, n => if n = 0 then [] else natToBytesBEAux fuel (n / 256) ++ [n % 256]

/-- Minimal big-endian byte representation of a natural number
(`natToBytesBE 0 = []`). -/
def natToBytesBE (n : Nat) : List Nat := natToBytesBEAux n n

/-- Base-58 decoding of a character list (`bs58::decode(..).into_vec()`):
fails on any non-alphabet character, otherwise one 0x00 byte per leading
`1` character followed by the big-endian bytes of the decoded value. -/
def bs58DecodeChars (s : List Char) : Option (List Nat) :=
  match s.mapM base58DigitOf with
  | none => none
  | some ds =>
    let value := ds.foldl (fun acc d => acc * 58 + d) 0
    some (List.replicate ((s.takeWhile (fun c => c = '1')).length) 0 ++
      natToBytesBE value)

/-- The `FromStr` implementation of `solana_program::pubkey::Pubkey`:
reject strings longer than 44 bytes, base-58 decode, require exactly
32 bytes.  Both of its error variants are collapsed into `none` (the caller
in validator.rs maps any parse error to one fixed `BankError`). -/
def pubkeyFromStr (s : String) : Option Pubkey :=
  if s.utf8ByteSize > 44 then none
  else
    match bs58DecodeChars s.toList with
    | none => none
    | some bytes => if bytes.length = 32 then some bytes else none

/-- The `FromStr` implementation of Rust `u64` (`"123".parse::<u64>()`):
an optional leading `+`, then one or more ASCII digits, value below
`2^64`. -/
def parseU64 (s : String) : Option Nat :=
  let cs := s.toList
  let ds := match cs with
    | '+' :: rest => rest
    | _ => cs
  if ds.isEmpty then none
  else if ds.all Char.isDigit then
    let v := ds.foldl (fun acc c => acc * 10 + (c.toNat - 48)) 0
    if v < U64MOD then some v else none
  else none

/-- Strict UTF-8 decoding of a byte buffer into its scalar values
(the validation performed by Rust `String::from_utf8`): rejects
continuation-byte errors, overlong encodings, surrogates and code points
above U+10FFFF. -/
def utf8Decode : List Nat → Option (List Char)
  | [] => some []
  | b0 :: t0 =>
    if b0 < 0x80 then
      match utf8Decode t0 with
      | some cs => some (Char.ofNat b0 :: cs)
      | none => none
    else if b0 < 0xC2 then none
    else if b0 < 0xE0 then
      match t0 with
      | b1 :: t1 =>
        if b1 / 64 = 2 then
          match utf8Decode t1 with
          | some cs => some (Char.ofNat ((b0 - 0xC0) * 64 + (b1 - 0x80)) :: cs)
          | none => none
        else none
      | [] => none
    else if b0 < 0xF0 then
      match t0 with
      | b1 :: b2 :: t2 =>
        if (if b0 = 0xE0 then 0xA0 else 0x80) ≤ b1 ∧
            b1 ≤ (if b0 = 0xED then 0x9F else 0xBF) ∧ b2 / 64 = 2 then
          match utf8Decode t2 with
          | some cs =>
            some (Char.ofNat
              ((b0 - 0xE0) * 4096 + (b1 - 0x80) * 64 + (b2 - 0x80)) :: cs)
          | none => none
        else none
      | _ => none
    else if b0 < 0xF5 then
      match t0 with
      | b1 :: b2 :: b3 :: t3 =>
        if (if b0 = 0xF0 then 0x90 else 0x80) ≤ b1 ∧
            b1 ≤ (if b0 = 0xF4 then 0x8F else 0xBF) ∧
            b2 / 64 = 2 ∧ b3 / 64 = 2 then
          match utf8Decode t3 with
          | some cs =>
            some (Char.ofNat
              ((b0 - 0xF0) * 262144 + (b1 - 0x80) * 4096 +
                (b2 - 0x80) * 64 + (b3 - 0x80)) :: cs)
          | none => none
        else none
      | _ => none
    else none

/-- Splitting a character list on a separator, Rust `str::split` semantics:
the result always has one more part than there are separators, so the empty
input yields `[[]]`. -/
def splitOnChar (sep : Char) : List Char → List (List Char)
  | [] => [[]]
  | c :: rest =>
    let r := splitOnChar sep rest
    if c = sep then [] :: r
    else
      match r with
      | f :: fs => (c :: f) :: fs
      | [] => [[c]]

/-- The decoded form of a V1 (native withdrawal) message, validator.rs. -/
structure MessageV1 where
  signer : List Nat
  signature : List Nat
  toPubkey : Pubkey
  lamports : Nat
  memo : String
deriving DecidableEq

/-- The decoded form of a V2 (token withdrawal) message, validator.rs. -/
structure MessageV2 where
  signer : List Nat
  signature : List Nat
  toPubkey : Pubkey
  mint : Pubkey
  amount : Nat
  memo : String
deriving DecidableEq

/-- Embedding of `validate_message_v1` (validator.rs).  The three leading
`get(..).unwrap()` calls panic exactly when the payload is shorter than 112
bytes; `String::from_utf8(..).unwrap()` panics on invalid UTF-8; a field
count other than 3 is the returned error `MessageV1ValidationFailed`; a
failing pubkey or amount parse panics (the source calls
`.map_err(..).unwrap()`, which discards the mapped error and panics). -/
def validate_message_v1 (d : List Nat) : RustResult MessageV1 :=
  if d.length < 112 then .panic
  else
    let signer := (d.drop 16).take 32
    let signature := (d.drop 48).take 64
    match utf8Decode (d.drop 112) with
    | none => .panic
    | some chars =>
      match splitOnChar ',' chars with
      | [f0, f1, f2] =>
        match pubkeyFromStr (String.mk f0) with
        | none => .panic
        | some toPk =>
          match parseU64 (String.mk f1) with
          | none => .panic
          | some lamports =>
            .ok ⟨signer, signature, toPk, lamports, String.mk f2⟩
      | _ => .err (.Custom BankError.MessageV1ValidationFailed.code)

/-- Embedding of `validate_message_v2` (validator.rs), same conventions as
`validate_message_v1` but with 4 comma-fields (`to`, `mint`, `amount`,
`memo`). -/
def validate_message_v2 (d : List Nat) : RustResult MessageV2 :=
  if d.length < 112 then .panic
  else
    let signer := (d.drop 16).take 32
    let signature := (d.drop 48).take 64
    match utf8Decode (d.drop 112) with
    | none => .panic
    | some chars =>
      match splitOnChar ',' chars with
      | [f0, f1, f2, f3] =>
        match pubkeyFromStr (String.mk f0) with
        | none => .panic
        | some toPk =>
          match pubkeyFromStr (String.mk f1) with
          | none => .panic
          | some mint =>
            match parseU64 (String.mk f2) with
            | none => .panic
            | some amount =>
              .ok ⟨signer, signature, toPk, mint, amount, String.mk f3⟩
      | _ => .err (.Custom BankError.MessageV2ValidationFailed.code)

/-- The `VerifiedSignature` log entry of state.rs. -/
structure VerifiedSignature where
  signature : List Nat
  is_ok : Bool
  time : Int
  message : List Nat
deriving DecidableEq

/-- The `UserBankAccount` state of state.rs. -/
structure UserBankAccount where
  discriminator : List Nat
  authority : Pubkey
  bump : Nat
  account_created_at : Int
  signatures : List VerifiedSignature
deriving DecidableEq

/-- Embedding of `UserBankAccount::add_signature` (state.rs): scan the log
for an entry with the same signature and `is_ok = true`; reject with
`SignatureAlreadyUsed` if found, otherwise append the new entry. -/
def UserBankAccount.add_signature (acc : UserBankAccount)
    (signature_info : VerifiedSignature) : Except ProgramError UserBankAccount :=
  if acc.signatures.any
      (fun s => s.signature = signature_info.signature ∧ s.is_ok = true) then
    .error (.Custom BankError.SignatureAlreadyUsed.code)
  else
    .ok { acc with signatures := acc.signatures ++ [signature_info] }

/-- Little-endian 4-byte borsh encoding of a `u32`. -/
def u32le (n : Nat) : List Nat :=
  [n % 256, n / 256 % 256, n / 65536 % 256, n / 16777216 % 256]

/-- Little-endian 8-byte borsh encoding of a `u64`. -/
def u64le (n : Nat) : List Nat := (List.range 8).map (fun i => n / 256 ^ i % 256)

/-- Little-endian 8-byte borsh encoding of an `i64` (two's complement). -/
def i64le (z : Int) : List Nat := u64le (z.emod (U64MOD : Nat)).toNat

/-- Borsh serialization of a `VerifiedSignature`
(`signature_info.try_to_vec()`): the fixed 64-byte signature, one boolean
byte, the 8-byte time, then the message as a length-prefixed byte vector. -/
def VerifiedSignature.borshBytes (s : VerifiedSignature) : List Nat :=
  s.signature ++ [if s.is_ok then 1 else 0] ++ i64le s.time ++
    u32le s.message.length ++ s.message

/-- First 8 bytes of sha256 of `"account:bank_account"`, the value of
`UserBankAccount::get_bank_account_discriminator` (state.rs). -/
def bankAccountDiscriminator : List Nat := [165, 21, 127, 197, 118, 227, 210, 89]

/-- The rent sysvar, reduced to the one configurable field this program
reads.  `exemption_threshold` is kept at its fixed default of 2.0 years
and `minimum_balance` is modelled exactly (the source's `f64` arithmetic is
exact for the products involved, which are far below `2^53`). -/
structure Rent where
  lamports_per_byte_year : Nat
deriving DecidableEq

/-- The `Rent::minimum_balance` of the runtime:
`(ACCOUNT_STORAGE_OVERHEAD + data_len) * lamports_per_byte_year *
exemption_threshold` with overhead 128 and threshold 2.0. -/
def Rent.minimum_balance (r : Rent) (data_len : Nat) : Nat :=
  ((128 + data_len) * r.lamports_per_byte_year) * 2

/-- The fields of a Solana `AccountInfo` this program reads. -/
structure AccountInfo where
  key : Pubkey
  owner : Pubkey
  lamports : Nat
  data : List Nat
  is_signer : Bool
deriving DecidableEq

/-- Byte value of the system program id `11111111111111111111111111111111`. -/
def SYSTEM_PROGRAM_ID : Pubkey := List.replicate 32 0

/-- Byte value of `Ed25519SigVerify111111111111111111111111111`. -/
def ED25519_PROGRAM_ID : Pubkey :=
  [3, 125, 70, 214, 124, 147, 251, 190, 18, 249, 66, 143, 131, 141, 64, 255,
   5, 112, 116, 73, 39, 244, 138, 100, 252, 202, 112, 68, 128, 0, 0, 0]

/-- Byte value of `TokenkegQfeZyiNwAJbNbGKPFXCWuBvf9Ss623VQ5DA`. -/
def SPL_TOKEN_PROGRAM_ID : Pubkey :=
  [6, 221, 246, 225, 215, 101, 161, 147, 217, 203, 225, 70, 206, 235, 121, 172,
   28, 180, 133, 237, 95, 91, 55, 145, 58, 140, 245, 133, 126, 255, 0, 169]

/-- Byte value of `MemoSq4gqABAXKb96qnH8TysNcWxMyWCqXgDLGmfcHr` (the
`MEMO_PROGRAM_ID` constant of processor.rs). -/
def MEMO_PROGRAM_ID : Pubkey :=
  [5, 74, 83, 90, 153, 41, 33, 6, 77, 36, 232, 113, 96, 218, 56, 124,
   124, 53, 181, 221, 188, 146, 187, 129, 228, 31, 168, 64, 65, 5, 68, 141]

/-- The `RENT_EXEMPT_YEARS_REQUIRED` constant of processor.rs. -/
def RENT_EXEMPT_YEARS_REQUIRED : Nat := 2

/-- A program-derived-address computation
(`Pubkey::create_program_address` applied to the seeds
`["user_bank_account", user, [bump]]`, as in
`UserBankAccount::get_user_bank_account_using_cpa`).  The sha256-based
derivation is a runtime primitive outside this repository, so it is passed
to every function that derives an address: arguments are the authority, the
bump byte and the program id. -/
abbrev CpaFn := Pubkey → Nat → Pubkey → Pubkey

/-- An associated-token-account derivation
(`Processor::_get_associated_token_account`), likewise passed as a
primitive: arguments are the wallet owner, the token program id and the
mint. -/
abbrev AtaFn := Pubkey → Pubkey → Pubkey → Pubkey

/-- Embedding of `validate_bank_account` (validator.rs): reject a foreign
owner with `InvalidAccountOwner`; panic if the data holds no 8-byte prefix
(`get(..8).unwrap()`); reject a wrong discriminator with
`InvalidAccountData`; panic if byte 40 is absent (`get(40).unwrap()`);
reject with `InvalidSeeds` if the address recomputed from the claimed
authority and the stored bump differs from the account's key.  The source
only ever borrows the account immutably, which the embedding reflects by
being a pure function of it. -/
def validate_bank_account (cpa : CpaFn) (program_id authority : Pubkey)
    (bank_account_info : AccountInfo) : RustResult Unit :=
  if bank_account_info.owner ≠ program_id then .err .InvalidAccountOwner
  else if bank_account_info.data.length < 8 then .panic
  else if bank_account_info.data.take 8 ≠ bankAccountDiscriminator then
    .err .InvalidAccountData
  else if bank_account_info.data.length ≤ 40 then .panic
  else if bank_account_info.key ≠
      cpa authority (bank_account_info.data.getD 40 0) program_id then
    .err .InvalidSeeds
  else .ok ()

/-- Observable outcome of `process_withdraw_lamports`: the result together
with the final lamport balances of the bank account and the recipient. -/
structure NativeWithdrawOutcome where
  result : RustResult Unit
  bank_lamports : Nat
  recipient_lamports : Nat
deriving DecidableEq

/-- Embedding of `Processor::process_withdraw_lamports` (processor.rs),
the direct (non-delegated) lamport withdrawal: require the authority's
signature, validate the bank account, and fail with
`InsufficientLamportBalance` whenever the requested amount exceeds the
account balance minus the rent-exempt minimum for the current data size;
otherwise move the lamports. -/
def process_withdraw_lamports (cpa : CpaFn) (rent : Rent)
    (program_id : Pubkey) (authority bank recipient : AccountInfo)
    (lamports : Nat) : NativeWithdrawOutcome :=
  let unchanged := fun r =>
    NativeWithdrawOutcome.mk r bank.lamports recipient.lamports
  if authority.is_signer = false then
    unchanged (.err .MissingRequiredSignature)
  else
    match validate_bank_account cpa program_id authority.key bank with
    | .panic => unchanged .panic
    | .err e => unchanged (.err e)
    | .ok _ =>
      let space := bank.data.length
      let rentMin := rent.minimum_balance space
      let balance := wsub bank.lamports rentMin
      if lamports > balance then
        unchanged (.err (.Custom BankError.InsufficientLamportBalance.code))
      else
        ⟨.ok (), wsub bank.lamports lamports, wadd recipient.lamports lamports⟩

/-- Observable outcome of the delegated native withdrawal: the result, the
persisted bank-account state (the deserialized struct that gets serialized
back), the bank account's data length after any resize, and the final
lamport balances of the bank account, the growth-funding account and the
recipient.  An error result reverts all of these to their initial values
(runtime transaction atomicity). -/
structure DelegatedNativeOutcome where
  result : RustResult Unit
  bank_state : UserBankAccount
  bank_data_len : Nat
  bank_lamports : Nat
  fund_lamports : Nat
  recipient_lamports : Nat
deriving DecidableEq

/-- Embedding of
`Processor::process_withdraw_lamports_using_ed25519_signature`
(processor.rs).  `prev_ix` is the result of
`get_processed_sibling_instruction(0)` (program id and data of the
companion instruction); `bank_state` is the `UserBankAccount` deserialized
from the bank account's data.  The system-program transfer that funds the
storage growth is modelled by its effect, failing with `ExternalCallFailed`
when the funding account is not a signer or lacks the balance; the memo
invocation succeeds once the memo account's key has been checked (the paying
signer was already required earlier). -/
def process_withdraw_lamports_using_ed25519_signature (cpa : CpaFn)
    (rent : Rent) (now : Int) (program_id : Pubkey)
    (prev_ix : Option (Pubkey × List Nat))
    (bank fund withdrawer recipient system_program : AccountInfo)
    (memo_account : Option AccountInfo)
    (bank_state : UserBankAccount) : DelegatedNativeOutcome :=
  let revert := fun r => DelegatedNativeOutcome.mk r bank_state
    bank.data.length bank.lamports fund.lamports recipient.lamports
  match prev_ix with
  | none =>
    revert (.err (.Custom BankError.FailedToGetEd25519Instruction.code))
  | some (prev_pid, ed25519_data) =>
    if prev_pid ≠ ED25519_PROGRAM_ID then
      revert (.err (.Custom
        BankError.InvalidEd25519SignatureVerificationInstruction.code))
    else
      match validate_message_v1 ed25519_data with
      | .panic => revert .panic
      | .err e => revert (.err e)
      | .ok m =>
        if m.toPubkey ≠ withdrawer.key then
          revert (.err (.Custom BankError.InvalidToPubkey.code))
        else if system_program.key ≠ SYSTEM_PROGRAM_ID then
          revert (.err (.Custom BankError.InvalidSystemProgramAccount.code))
        else if withdrawer.is_signer = false then
          revert (.err .MissingRequiredSignature)
        else
          match validate_bank_account cpa program_id m.signer bank with
          | .panic => revert .panic
          | .err e => revert (.err e)
          | .ok _ =>
            let balance :=
              wsub bank.lamports (rent.minimum_balance bank.data.length)
            let is_ok : Bool := ¬ (m.lamports > balance)
            let sig_info : VerifiedSignature :=
              ⟨m.signature, is_ok, now, ed25519_data.drop 112⟩
            match bank_state.add_signature sig_info with
            | .error e => revert (.err e)
            | .ok new_state =>
              let space_to_add := sig_info.borshBytes.length
              let rent_for_space_increase :=
                wmul (wmul rent.lamports_per_byte_year space_to_add)
                  RENT_EXEMPT_YEARS_REQUIRED
              if fund.is_signer = false ∨
                  fund.lamports < rent_for_space_increase then
                revert (.err .ExternalCallFailed)
              else
                let bank_lamports' := wadd bank.lamports rent_for_space_increase
                let fund_lamports' := wsub fund.lamports rent_for_space_increase
                let bank_data_len' := bank.data.length + space_to_add
                if is_ok = false then
                  ⟨.ok (), new_state, bank_data_len', bank_lamports',
                    fund_lamports', recipient.lamports⟩
                else
                  let memo_ok : RustResult Unit :=
                    if m.memo.length > 0 then
                      match memo_account with
                      | none => .err .NotEnoughAccountKeys
                      | some memo_acc =>
                        if memo_acc.key ≠ MEMO_PROGRAM_ID then
                          .err (.Custom BankError.InvalidMemoProgramAccount.code)
                        else .ok ()
                    else .ok ()
                  match memo_ok with
                  | .panic => revert .panic
                  | .err e => revert (.err e)
                  | .ok _ =>
                    ⟨.ok (), new_state, bank_data_len',
                      wsub bank_lamports' m.lamports, fund_lamports',
                      wadd recipient.lamports m.lamports⟩

/-- Observable outcome of the delegated token withdrawal: the result, the
persisted bank-account state, the bank account's data length after any
resize, the lamport balances of the bank account and the growth-funding
account, and the token amounts of the bank's associated token account and
the destination token account.  An error result reverts everything. -/
structure DelegatedTokenOutcome where
  result : RustResult Unit
  bank_state : UserBankAccount
  bank_data_len : Nat
  bank_lamports : Nat
  fund_lamports : Nat
  bank_token_amount : Nat
  dest_token_amount : Nat
deriving DecidableEq

/-- Embedding of
`Processor::process_withdraw_spl_tokens_using_ed25519_signature`
(processor.rs).  `bank_token_amount` and `dest_token_amount` are the token
amounts unpacked from the bank's associated token account and the
destination token account; the checked token transfer is modelled by its
effect on those two amounts (it cannot fail for insufficiency on the taken
branch, which only runs when `amount ≤ bank_token_amount`). -/
def process_withdraw_spl_tokens_using_ed25519_signature (cpa : CpaFn)
    (ata : AtaFn) (rent : Rent) (now : Int) (program_id : Pubkey)
    (prev_ix : Option (Pubkey × List Nat))
    (mint_account bank bank_ata fund withdrawer dest_token token_program
      system_program : AccountInfo)
    (memo_account : Option AccountInfo)
    (bank_state : UserBankAccount)
    (bank_token_amount dest_token_amount : Nat) : DelegatedTokenOutcome :=
  let revert := fun r => DelegatedTokenOutcome.mk r bank_state
    bank.data.length bank.lamports fund.lamports bank_token_amount
    dest_token_amount
  match prev_ix with
  | none =>
    revert (.err (.Custom BankError.FailedToGetEd25519Instruction.code))
  | some (prev_pid, ed25519_data) =>
    if prev_pid ≠ ED25519_PROGRAM_ID then
      revert (.err (.Custom
        BankError.InvalidEd25519SignatureVerificationInstruction.code))
    else
      match validate_message_v2 ed25519_data with
      | .panic => revert .panic
      | .err e => revert (.err e)
      | .ok m =>
        if m.toPubkey ≠ withdrawer.key then
          revert (.err (.Custom BankError.InvalidToPubkey.code))
        else if system_program.key ≠ SYSTEM_PROGRAM_ID then
          revert (.err (.Custom BankError.InvalidSystemProgramAccount.code))
        else if token_program.key ≠ SPL_TOKEN_PROGRAM_ID then
          revert (.err (.Custom BankError.InvalidSplTokenProgramAccount.code))
        else if withdrawer.is_signer = false then
          revert (.err .MissingRequiredSignature)
        else
          match validate_bank_account cpa program_id m.signer bank with
          | .panic => revert .panic
          | .err e => revert (.err e)
          | .ok _ =>
            if mint_account.key ≠ m.mint then
              revert (.err (.Custom BankError.InvalidMintAccount.code))
            else if ata bank.key token_program.key mint_account.key ≠
                bank_ata.key then
              revert (.err (.Custom
                BankError.InvalidBankAssociatedTokenAccount.code))
            else
              let is_ok : Bool := ¬ (m.amount > bank_token_amount)
              let signature_info : VerifiedSignature :=
                ⟨m.signature, is_ok, now, ed25519_data.drop 112⟩
              match bank_state.add_signature signature_info with
              | .error e => revert (.err e)
              | .ok new_state =>
                let space_to_add := signature_info.borshBytes.length
                let rent_for_space_increase :=
                  wmul (wmul space_to_add rent.lamports_per_byte_year)
                    RENT_EXEMPT_YEARS_REQUIRED
                if fund.is_signer = false ∨
                    fund.lamports < rent_for_space_increase then
                  revert (.err .ExternalCallFailed)
                else
                  let bank_lamports' :=
                    wadd bank.lamports rent_for_space_increase
                  let fund_lamports' :=
                    wsub fund.lamports rent_for_space_increase
                  let bank_data_len' := bank.data.length + space_to_add
                  if is_ok = false then
                    ⟨.ok (), new_state, bank_data_len', bank_lamports',
                      fund_lamports', bank_token_amount, dest_token_amount⟩
                  else
                    let memo_ok : RustResult Unit :=
                      if m.memo.length > 0 then
                        match memo_account with
                        | none => .err .NotEnoughAccountKeys
                        | some memo_acc =>
                          if memo_acc.key ≠ MEMO_PROGRAM_ID then
                            .err (.Custom
                              BankError.InvalidMemoProgramAccount.code)
                          else .ok ()
                      else .ok ()
                    match memo_ok with
                    | .panic => revert .panic
                    | .err e => revert (.err e)
                    | .ok _ =>
                      ⟨.ok (), new_state, bank_data_len', bank_lamports',
                        fund_lamports', wsub bank_token_amount m.amount,
                        wadd dest_token_amount m.amount⟩

theorem U64MOD_pos : 0 < U64MOD := by norm_num [U64MOD]

theorem wadd_eq (a b : Nat) (h : a + b < U64MOD) : wadd a b = a + b := by
  unfold wadd; exact Nat.mod_eq_of_lt h

theorem wsub_eq (a b : Nat) (hba : b ≤ a) (ha : a < U64MOD) :
    wsub a b = a - b := by
  unfold wsub
  rw [Nat.mod_eq_of_lt ha, Nat.mod_eq_of_lt (lt_of_le_of_lt hba ha)]
  have h1 : a + (U64MOD - b) = U64MOD + (a - b) := by omega
  rw [h1, Nat.add_mod_left, Nat.mod_eq_of_lt (by omega)]

theorem wmul_eq (a b : Nat) (h : a * b < U64MOD) : wmul a b = a * b := by
  unfold wmul; exact Nat.mod_eq_of_lt h

theorem borshBytes_length (s : VerifiedSignature) :
    s.borshBytes.length = s.signature.length + 13 + s.message.length := by
  simp [VerifiedSignature.borshBytes, u32le, u64le, i64le]
  omega

/-- Helper: `add_signature` succeeds and appends when no existing entry
carries the same signature with `is_ok = true`. -/
theorem add_signature_ok_of_not_used (acc : UserBankAccount)
    (s : VerifiedSignature)
    (h : ∀ e ∈ acc.signatures, e.signature = s.signature → e.is_ok = false) :
    acc.add_signature s = .ok { acc with signatures := acc.signatures ++ [s] } := by
  unfold UserBankAccount.add_signature
  rw [if_neg]
  intro hany
  rw [List.any_eq_true] at hany
  obtain ⟨e, he, hp⟩ := hany
  rw [decide_eq_true_eq] at hp
  have := h e he hp.1
  rw [hp.2] at this
  exact absurd this (by simp)

/-- Helper: `add_signature` fails with `SignatureAlreadyUsed` when some
existing entry carries the same signature with `is_ok = true`. -/
theorem add_signature_err_of_used (acc : UserBankAccount)
    (s : VerifiedSignature)
    (h : ∃ e ∈ acc.signatures, e.signature = s.signature ∧ e.is_ok = true) :
    acc.add_signature s =
      .error (.Custom BankError.SignatureAlreadyUsed.code) := by
  unfold UserBankAccount.add_signature
  rw [if_pos]
  rw [List.any_eq_true]
  obtain ⟨e, he, hp⟩ := h
  exact ⟨e, he, decide_eq_true_eq.mpr hp⟩

/-- C10: the message codec is only total when the verification payload holds
at least the 112 header/signer/signature bytes and its body is valid UTF-8;
any payload violating either precondition makes both decoders panic (failed
`unwrap`), returning no decode error at all. -/
theorem codec_panics_outside_utf8_and_length_precondition (d : List Nat)
    (h : d.length < 112 ∨ utf8Decode (d.drop 112) = none) :
    validate_message_v1 d = .panic ∧ validate_message_v2 d = .panic := by
  constructor
  · unfold validate_message_v1
    rcases h with h | h
    · rw [if_pos h]
    · by_cases hl : d.length < 112
      · rw [if_pos hl]
      · rw [if_neg hl, h]
  · unfold validate_message_v2
    rcases h with h | h
    · rw [if_pos h]
    · by_cases hl : d.length < 112
      · rw [if_pos hl]
      · rw [if_neg hl, h]

theorem codec_panics_outside_utf8_and_length_precondition_witness :
    ([] : List Nat).length < 112 ∧
      (validate_message_v1 [] = .panic ∧ validate_message_v2 [] = .panic) :=
  ⟨by decide,
    codec_panics_outside_utf8_and_length_precondition [] (Or.inl (by decide))⟩

theorem list_length_eq_four {α : Type} {l : List α} (h : l.length = 4) :
    ∃ a b c d, l = [a, b, c, d] := by
  rcases l with _ | ⟨a, l⟩
  · simp at h
  rcases l with _ | ⟨b, l⟩
  · simp at h
  rcases l with _ | ⟨c, l⟩
  · simp at h
  rcases l with _ | ⟨d, l⟩
  · simp at h
  rcases l with _ | ⟨e, l⟩
  · exact ⟨a, b, c, d, rfl⟩
  · simp at h

theorem v1_count_ne_three (d : List Nat) (chars : List Char)
    (hlen : 112 ≤ d.length) (hutf : utf8Decode (d.drop 112) = some chars)
    (hne : (splitOnChar ',' chars).length ≠ 3) :
    validate_message_v1 d =
      .err (.Custom BankError.MessageV1ValidationFailed.code) := by
  unfold validate_message_v1
  simp only [if_neg (show ¬ d.length < 112 by omega), hutf]
  rcases hs : splitOnChar ',' chars with _ | ⟨f0, _ | ⟨f1, _ | ⟨f2, _ | ⟨f3, rest⟩⟩⟩⟩ <;>
    simp_all

theorem v1_count_three (d : List Nat) (chars : List Char)
    (hlen : 112 ≤ d.length) (hutf : utf8Decode (d.drop 112) = some chars)
    (h3 : (splitOnChar ',' chars).length = 3) :
    validate_message_v1 d ≠
      .err (.Custom BankError.MessageV1ValidationFailed.code) := by
  unfold validate_message_v1
  simp only [if_neg (show ¬ d.length < 112 by omega), hutf]
  obtain ⟨a, b, c, habc⟩ := List.length_eq_three.mp h3
  simp only [habc]
  rcases hp : pubkeyFromStr (String.mk a) with _ | pk
  · simp [hp]
  · rcases hn : parseU64 (String.mk b) with _ | n <;> simp [hp, hn]

theorem v2_count_ne_four (d : List Nat) (chars : List Char)
    (hlen : 112 ≤ d.length) (hutf : utf8Decode (d.drop 112) = some chars)
    (hne : (splitOnChar ',' chars).length ≠ 4) :
    validate_message_v2 d =
      .err (.Custom BankError.MessageV2ValidationFailed.code) := by
  unfold validate_message_v2
  simp only [if_neg (show ¬ d.length < 112 by omega), hutf]
  rcases hs : splitOnChar ',' chars with
      _ | ⟨f0, _ | ⟨f1, _ | ⟨f2, _ | ⟨f3, _ | ⟨f4, rest⟩⟩⟩⟩⟩ <;>
    simp_all

theorem v2_count_four (d : List Nat) (chars : List Char)
    (hlen : 112 ≤ d.length) (hutf : utf8Decode (d.drop 112) = some chars)
    (h4 : (splitOnChar ',' chars).length = 4) :
    validate_message_v2 d ≠
      .err (.Custom BankError.MessageV2ValidationFailed.code) := by
  unfold validate_message_v2
  simp only [if_neg (show ¬ d.length < 112 by omega), hutf]
  obtain ⟨a, b, c, e, habc⟩ := list_length_eq_four h4
  simp only [habc]
  rcases hp : pubkeyFromStr (String.mk a) with _ | pk
  · simp [hp]
  · rcases hm : pubkeyFromStr (String.mk b) with _ | mk
    · simp [hp, hm]
    · rcases hn : parseU64 (String.mk c) with _ | n <;> simp [hp, hm, hn]

/-- C5: for payloads long enough and UTF-8-decodable (so that the codec
reaches the body), a comma-field count different from 3 (V1) or 4 (V2)
yields exactly the versioned `MessageVxValidationFailed` error, and a
matching count never does. -/
theorem codec_field_count_gate (d : List Nat) (chars : List Char)
    (hlen : 112 ≤ d.length) (hutf : utf8Decode (d.drop 112) = some chars) :
    ((splitOnChar ',' chars).length ≠ 3 →
      validate_message_v1 d =
        .err (.Custom BankError.MessageV1ValidationFailed.code)) ∧
    ((splitOnChar ',' chars).length = 3 →
      validate_message_v1 d ≠
        .err (.Custom BankError.MessageV1ValidationFailed.code)) ∧
    ((splitOnChar ',' chars).length ≠ 4 →
      validate_message_v2 d =
        .err (.Custom BankError.MessageV2ValidationFailed.code)) ∧
    ((splitOnChar ',' chars).length = 4 →
      validate_message_v2 d ≠
        .err (.Custom BankError.MessageV2ValidationFailed.code)) :=
  ⟨v1_count_ne_three d chars hlen hutf, v1_count_three d chars hlen hutf,
    v2_count_ne_four d chars hlen hutf, v2_count_four d chars hlen hutf⟩

/-- Payload whose body is `"a,b"`: two comma-fields. -/
def twoFieldPayload : List Nat :=
  List.replicate 16 0 ++ List.replicate 32 7 ++ List.replicate 64 9 ++
    [97, 44, 98]

theorem codec_field_count_gate_witness :
    112 ≤ twoFieldPayload.length ∧
      validate_message_v1 twoFieldPayload =
        .err (.Custom BankError.MessageV1ValidationFailed.code) ∧
      validate_message_v2 twoFieldPayload =
        .err (.Custom BankError.MessageV2ValidationFailed.code) :=
  ⟨by decide,
    (codec_field_count_gate twoFieldPayload [Char.ofNat 97, ',', Char.ofNat 98]
      (by decide) (by decide)).1 (by decide),
    (codec_field_count_gate twoFieldPayload [Char.ofNat 97, ',', Char.ofNat 98]
      (by decide) (by decide)).2.2.1 (by decide)⟩

/-- Payload with a well-formed frame and the 3-field body `"x,1,m"`, whose
first field is not a valid 32-byte base-58 identity. -/
def badPubkeyPayloadV1 : List Nat :=
  List.replicate 16 0 ++ List.replicate 32 7 ++ List.replicate 64 9 ++
    [120, 44, 49, 44, 109]

/-- Payload with a well-formed frame and a 3-field body whose first field is
32 `1` characters (a valid identity, decoding to 32 zero bytes) and whose
amount field `"9z"` is not a decimal integer. -/
def badAmountPayloadV1 : List Nat :=
  List.replicate 16 0 ++ List.replicate 32 7 ++ List.replicate 64 9 ++
    (List.replicate 32 49 ++ [44, 57, 122, 44, 109])

/-- Payload with a well-formed frame and a 4-field body whose mint field
`"x"` is not a valid 32-byte base-58 identity. -/
def badMintPayloadV2 : List Nat :=
  List.replicate 16 0 ++ List.replicate 32 7 ++ List.replicate 64 9 ++
    (List.replicate 32 49 ++ [44, 120, 44, 49, 44, 109])

/-- C4: on a body with the exact expected field count whose identity or
amount field fails to parse, the codec does not return `InvalidToPubkey`,
`InvalidLamports`, `InvalidMint` or `InvalidTokenAmount` (or any error): it
panics, because the source unwraps the mapped error
(`.map_err(..).unwrap()`). -/
theorem codec_parse_failure_panics_instead_of_erroring :
    validate_message_v1 badPubkeyPayloadV1 = .panic ∧
    validate_message_v1 badAmountPayloadV1 = .panic ∧
    validate_message_v2 badMintPayloadV2 = .panic := by decide

/-- Predicate of C2: no two entries of the signature log both marked
`is_ok = true` carry the same 64-byte signature value. -/
def NoDupOkSignatures (acc : UserBankAccount) : Prop :=
  acc.signatures.Pairwise
    (fun a b => a.is_ok = true → b.is_ok = true → a.signature ≠ b.signature)

/-- Reachable bank-account states: a freshly initialized account has an
empty signature log (`process_create_initialize_bank_account` serializes
the default empty vector), and the only operation of the program that
modifies the log is a successful `add_signature` (both delegated
withdrawal paths). -/
inductive ReachableBank : UserBankAccount → Prop where
  | created (disc : List Nat) (auth : Pubkey) (bump : Nat) (t : Int) :
      ReachableBank ⟨disc, auth, bump, t, []⟩
  | appended (acc : UserBankAccount) (sig : VerifiedSignature)
      (acc' : UserBankAccount) (hr : ReachableBank acc)
      (hstep : acc.add_signature sig = .ok acc') : ReachableBank acc'

theorem add_signature_preserves_nodup (acc : UserBankAccount)
    (sig : VerifiedSignature) (acc' : UserBankAccount)
    (hinv : NoDupOkSignatures acc)
    (h : acc.add_signature sig = .ok acc') : NoDupOkSignatures acc' := by
  unfold UserBankAccount.add_signature at h
  split at h
  · exact absurd h (by simp)
  · rename_i hcond
    have hacc : acc' = { acc with signatures := acc.signatures ++ [sig] } := by
      cases h
      rfl
    subst hacc
    unfold NoDupOkSignatures
    rw [List.pairwise_append]
    refine ⟨hinv, List.pairwise_singleton _ _, ?_⟩
    intro a ha b hb hok hbok
    have hb' : b = sig := by simpa using hb
    subst hb'
    intro hcontra
    exact hcond (List.any_eq_true.mpr
      ⟨a, ha, decide_eq_true_eq.mpr ⟨hcontra, hok⟩⟩)

/-- C2: every reachable bank-account state has no duplicate signature among
its `is_ok = true` log entries, and `add_signature` (hence each delegated
withdrawal path, whose only log mutation is a successful `add_signature`)
preserves that invariant. -/
theorem signature_log_exactly_once_invariant :
    (∀ acc, ReachableBank acc → NoDupOkSignatures acc) ∧
    (∀ acc sig acc', NoDupOkSignatures acc →
      acc.add_signature sig = .ok acc' → NoDupOkSignatures acc') := by
  constructor
  · intro acc h
    induction h with
    | created disc auth bump t => exact List.Pairwise.nil
    | appended a s a' hr hstep ih => exact add_signature_preserves_nodup a s a' ih hstep
  · exact fun acc sig acc' => add_signature_preserves_nodup acc sig acc'

theorem signature_log_exactly_once_invariant_witness :
    NoDupOkSignatures ⟨bankAccountDiscriminator, List.replicate 32 2, 254, 0, []⟩ :=
  signature_log_exactly_once_invariant.1 _ (ReachableBank.created _ _ _ _)

/-- First 16 bytes (ed25519 offsets header) of the V1 test payload of
validator.rs. -/
def c6Header : List Nat :=
  [1,0,48,0,255,255,16,0,255,255,112,0,70,0,255,255]

/-- Signer bytes `[16..48)` of the V1 test payload. -/
def c6Signer : List Nat :=
  [187,220,42,181,173,60,36,199,230,65,125,124,22,8,191,157,169,169,85,113,
   83,0,79,147,213,225,127,24,199,48,221,200]

/-- Signature bytes `[48..112)` of the V1 test payload. -/
def c6Sig : List Nat :=
  [180,255,54,4,159,187,73,74,51,186,168,106,147,16,201,14,106,1,49,196,88,
   116,177,137,13,198,252,34,171,201,99,51,187,100,183,46,111,86,128,156,103,
   161,229,61,73,72,133,239,84,27,37,192,242,126,121,29,166,79,235,157,205,
   28,183,2]

/-- Body bytes `[112..)` of the V1 test payload. -/
def c6Body : List Nat :=
  [55,66,101,71,121,102,65,71,103,101,104,67,54,102,86,80,55,81,80,72,104,87,
   103,71,106,119,83,112,97,74,105,118,78,49,54,69,81,72,87,54,111,89,84,116,
   44,49,48,48,48,44,72,101,108,108,111,32,80,111,111,114,105,97,71,71,32,
   240,159,152,131,33]


/-- C6: a well-formed V1 payload — 16-byte header, 32-byte signer, 64-byte
signature, then a UTF-8 body splitting into exactly three comma-fields with
a parsable identity and amount — decodes successfully into exactly its
literal fields. -/
theorem v1_wellformed_roundtrip (header signerB sigB body : List Nat)
    (chars f0 f1 f2 : List Char) (pk : Pubkey) (n : Nat)
    (hh : header.length = 16) (hs : signerB.length = 32)
    (hg : sigB.length = 64)
    (hu : utf8Decode body = some chars)
    (hsplit : splitOnChar ',' chars = [f0, f1, f2])
    (hpk : pubkeyFromStr (String.mk f0) = some pk)
    (hn : parseU64 (String.mk f1) = some n) :
    validate_message_v1 (header ++ signerB ++ sigB ++ body) =
      .ok ⟨signerB, sigB, pk, n, String.mk f2⟩ := by
  have e1 : header ++ signerB ++ sigB ++ body =
      header ++ (signerB ++ (sigB ++ body)) := by simp
  have e2 : header ++ signerB ++ sigB ++ body =
      (header ++ signerB) ++ (sigB ++ body) := by simp
  have e3 : header ++ signerB ++ sigB ++ body =
      (header ++ signerB ++ sigB) ++ body := by simp
  have hdrop16 : (header ++ signerB ++ sigB ++ body).drop 16 =
      signerB ++ (sigB ++ body) := by rw [e1]; exact List.drop_left' hh
  have htake32 : (signerB ++ (sigB ++ body)).take 32 = signerB :=
    List.take_left' hs
  have hdrop48 : (header ++ signerB ++ sigB ++ body).drop 48 =
      sigB ++ body := by
    rw [e2]; exact List.drop_left' (by simp [hh, hs])
  have htake64 : (sigB ++ body).take 64 = sigB := List.take_left' hg
  have hdrop112 : (header ++ signerB ++ sigB ++ body).drop 112 = body := by
    rw [e3]; exact List.drop_left' (by simp [hh, hs, hg])
  have hL : ¬ (header ++ signerB ++ sigB ++ body).length < 112 := by
    simp only [List.length_append, hh, hs, hg]; omega
  unfold validate_message_v1
  simp only [if_neg hL, hdrop16, htake32, hdrop48, htake64, hdrop112, hu,
    hsplit, hpk, hn]

theorem v1_wellformed_roundtrip_witness :
    validate_message_v1 (c6Header ++ c6Signer ++ c6Sig ++ c6Body) =
      .ok ⟨c6Signer, c6Sig,
        [91, 224, 19, 192, 15, 209, 141, 138, 254, 79, 169, 41, 93, 76, 189,
         199, 233, 244, 187, 209, 240, 53, 220, 133, 118, 105, 192, 100, 175,
         122, 65, 147], 1000, "Hello PooriaGG 😃!"⟩ :=
  v1_wellformed_roundtrip c6Header c6Signer c6Sig c6Body
    "7BeGyfAGgehC6fVP7QPHhWgGjwSpaJivN16EQHW6oYTt,1000,Hello PooriaGG 😃!".toList
    "7BeGyfAGgehC6fVP7QPHhWgGjwSpaJivN16EQHW6oYTt".toList
    "1000".toList "Hello PooriaGG 😃!".toList
    [91, 224, 19, 192, 15, 209, 141, 138, 254, 79, 169, 41, 93, 76, 189, 199,
     233, 244, 187, 209, 240, 53, 220, 133, 118, 105, 192, 100, 175, 122, 65,
     147] 1000
    (by decide) (by decide) (by decide) (by decide) (by decide) (by decide)
    (by decide)

/-- C1: on either delegated path, once the guards preceding the replay check
pass, a request whose decoded signature matches a logged entry with
`is_ok = true` fails with `SignatureAlreadyUsed` and every account
observable keeps its initial value (no storage mutation), for any amount
and memo; and a logged entry with the same signature but `is_ok = false`
never by itself produces `SignatureAlreadyUsed`. -/
theorem delegated_replay_gate :
    (∀ (cpa : CpaFn) (rent : Rent) (now : Int) (program_id : Pubkey)
      (ed25519_data : List Nat) (m : MessageV1)
      (bank fund withdrawer recipient system_program : AccountInfo)
      (memo_account : Option AccountInfo) (bank_state : UserBankAccount),
      validate_message_v1 ed25519_data = .ok m →
      m.toPubkey = withdrawer.key →
      system_program.key = SYSTEM_PROGRAM_ID →
      withdrawer.is_signer = true →
      validate_bank_account cpa program_id m.signer bank = .ok () →
      (∃ e ∈ bank_state.signatures,
        e.signature = m.signature ∧ e.is_ok = true) →
      process_withdraw_lamports_using_ed25519_signature cpa rent now
        program_id (some (ED25519_PROGRAM_ID, ed25519_data)) bank fund
        withdrawer recipient system_program memo_account bank_state =
        ⟨.err (.Custom BankError.SignatureAlreadyUsed.code), bank_state,
          bank.data.length, bank.lamports, fund.lamports,
          recipient.lamports⟩) ∧
    (∀ (cpa : CpaFn) (rent : Rent) (now : Int) (program_id : Pubkey)
      (ed25519_data : List Nat) (m : MessageV1)
      (bank fund withdrawer recipient system_program : AccountInfo)
      (memo_account : Option AccountInfo) (bank_state : UserBankAccount),
      validate_message_v1 ed25519_data = .ok m →
      m.toPubkey = withdrawer.key →
      system_program.key = SYSTEM_PROGRAM_ID →
      withdrawer.is_signer = true →
      validate_bank_account cpa program_id m.signer bank = .ok () →
      (∀ e ∈ bank_state.signatures,
        e.signature = m.signature → e.is_ok = false) →
      (process_withdraw_lamports_using_ed25519_signature cpa rent now
        program_id (some (ED25519_PROGRAM_ID, ed25519_data)) bank fund
        withdrawer recipient system_program memo_account bank_state).result ≠
        .err (.Custom BankError.SignatureAlreadyUsed.code)) ∧
    (∀ (cpa : CpaFn) (ata : AtaFn) (rent : Rent) (now : Int)
      (program_id : Pubkey) (ed25519_data : List Nat) (m : MessageV2)
      (mint_account bank bank_ata fund withdrawer dest_token token_program
        system_program : AccountInfo)
      (memo_account : Option AccountInfo) (bank_state : UserBankAccount)
      (bank_token_amount dest_token_amount : Nat),
      validate_message_v2 ed25519_data = .ok m →
      m.toPubkey = withdrawer.key →
      system_program.key = SYSTEM_PROGRAM_ID →
      token_program.key = SPL_TOKEN_PROGRAM_ID →
      withdrawer.is_signer = true →
      validate_bank_account cpa program_id m.signer bank = .ok () →
      mint_account.key = m.mint →
      ata bank.key token_program.key mint_account.key = bank_ata.key →
      (∃ e ∈ bank_state.signatures,
        e.signature = m.signature ∧ e.is_ok = true) →
      process_withdraw_spl_tokens_using_ed25519_signature cpa ata rent now
        program_id (some (ED25519_PROGRAM_ID, ed25519_data)) mint_account
        bank bank_ata fund withdrawer dest_token token_program
        system_program memo_account bank_state bank_token_amount
        dest_token_amount =
        ⟨.err (.Custom BankError.SignatureAlreadyUsed.code), bank_state,
          bank.data.length, bank.lamports, fund.lamports, bank_token_amount,
          dest_token_amount⟩) ∧
    (∀ (cpa : CpaFn) (ata : AtaFn) (rent : Rent) (now : Int)
      (program_id : Pubkey) (ed25519_data : List Nat) (m : MessageV2)
      (mint_account bank bank_ata fund withdrawer dest_token token_program
        system_program : AccountInfo)
      (memo_account : Option AccountInfo) (bank_state : UserBankAccount)
      (bank_token_amount dest_token_amount : Nat),
      validate_message_v2 ed25519_data = .ok m →
      m.toPubkey = withdrawer.key →
      system_program.key = SYSTEM_PROGRAM_ID →
      token_program.key = SPL_TOKEN_PROGRAM_ID →
      withdrawer.is_signer = true →
      validate_bank_account cpa program_id m.signer bank = .ok () →
      mint_account.key = m.mint →
      ata bank.key token_program.key mint_account.key = bank_ata.key →
      (∀ e ∈ bank_state.signatures,
        e.signature = m.signature → e.is_ok = false) →
      (process_withdraw_spl_tokens_using_ed25519_signature cpa ata rent now
        program_id (some (ED25519_PROGRAM_ID, ed25519_data)) mint_account
        bank bank_ata fund withdrawer dest_token token_program
        system_program memo_account bank_state bank_token_amount
        dest_token_amount).result ≠
        .err (.Custom BankError.SignatureAlreadyUsed.code)) := by
  refine ⟨?_, ?_, ?_, ?_⟩
  · intro cpa rent now program_id ed25519_data m bank fund withdrawer
      recipient system_program memo_account bank_state hmsg hto hsys hws
      hval hused
    unfold process_withdraw_lamports_using_ed25519_signature
    simp only [hmsg, hto, hsys, hws, hval, ne_eq, not_true_eq_false,
      Bool.true_eq_false, if_false, ite_false, ite_true, not_false_eq_true]
    rw [add_signature_err_of_used _ _ hused]
  · intro cpa rent now program_id ed25519_data m bank fund withdrawer
      recipient system_program memo_account bank_state hmsg hto hsys hws
      hval hclean
    unfold process_withdraw_lamports_using_ed25519_signature
    simp only [hmsg, hto, hsys, hws, hval, ne_eq, not_true_eq_false,
      Bool.true_eq_false, if_false, ite_false, ite_true, not_false_eq_true]
    have hadd : ∀ (b : Bool) (t : Int) (msg : List Nat),
        bank_state.add_signature ⟨m.signature, b, t, msg⟩ =
          .ok { bank_state with
            signatures := bank_state.signatures ++ [⟨m.signature, b, t, msg⟩] } :=
      fun b t msg =>
        add_signature_ok_of_not_used _ _ (fun e he hs => hclean e he hs)
    simp only [hadd]
    split
    · simp
    · split
      · simp
      · by_cases hm : m.memo.length > 0
        · simp only [if_pos hm]
          cases memo_account with
          | none => simp
          | some acc =>
            by_cases hk : acc.key = MEMO_PROGRAM_ID
            · simp [hk]
            · simp [hk, BankError.code]
        · simp only [if_neg hm]
          simp
  · intro cpa ata rent now program_id ed25519_data m mint_account bank
      bank_ata fund withdrawer dest_token token_program system_program
      memo_account bank_state bank_token_amount dest_token_amount hmsg hto
      hsys htok hws hval hmint hata hused
    rw [htok, hmint] at hata
    unfold process_withdraw_spl_tokens_using_ed25519_signature
    simp only [hmsg, hto, hsys, htok, hws, hval, hmint, hata, ne_eq,
      not_true_eq_false, Bool.true_eq_false, if_false, ite_false, ite_true,
      not_false_eq_true]
    rw [add_signature_err_of_used _ _ hused]
  · intro cpa ata rent now program_id ed25519_data m mint_account bank
      bank_ata fund withdrawer dest_token token_program system_program
      memo_account bank_state bank_token_amount dest_token_amount hmsg hto
      hsys htok hws hval hmint hata hclean
    rw [htok, hmint] at hata
    unfold process_withdraw_spl_tokens_using_ed25519_signature
    simp only [hmsg, hto, hsys, htok, hws, hval, hmint, hata, ne_eq,
      not_true_eq_false, Bool.true_eq_false, if_false, ite_false, ite_true,
      not_false_eq_true]
    have hadd : ∀ (b : Bool) (t : Int) (msg : List Nat),
        bank_state.add_signature ⟨m.signature, b, t, msg⟩ =
          .ok { bank_state with
            signatures := bank_state.signatures ++ [⟨m.signature, b, t, msg⟩] } :=
      fun b t msg =>
        add_signature_ok_of_not_used _ _ (fun e he hs => hclean e he hs)
    simp only [hadd]
    split
    · simp
    · split
      · simp
      · by_cases hm : m.memo.length > 0
        · simp only [if_pos hm]
          cases memo_account with
          | none => simp
          | some acc =>
            by_cases hk : acc.key = MEMO_PROGRAM_ID
            · simp [hk]
            · simp [hk, BankError.code]
        · simp only [if_neg hm]
          simp

/-- Program id used by the concrete instantiations below. -/
def wProgramId : Pubkey := List.replicate 32 1

/-- Address of the concrete bank account. -/
def wBankKey : Pubkey := List.replicate 32 3

/-- Concrete derivation oracle mapping every seed set to `wBankKey`. -/
def wCpa : CpaFn := fun _ _ _ => wBankKey

/-- Address of the concrete bank associated token account. -/
def wAtaKey : Pubkey := List.replicate 32 5

/-- Concrete associated-token-account oracle. -/
def wAta : AtaFn := fun _ _ _ => wAtaKey

/-- Concrete rent sysvar (the mainnet price of 3480 lamports/byte-year). -/
def wRent : Rent := ⟨3480⟩

/-- Concrete bank-account data: discriminator, then 33 filler bytes, so the
bump byte at offset 40 exists. -/
def wBankData : List Nat := bankAccountDiscriminator ++ List.replicate 33 0

/-- Concrete message signer (the bank authority). -/
def wSigner : List Nat := List.replicate 32 7

/-- Concrete 64-byte message signature. -/
def wSig : List Nat := List.replicate 64 9

/-- Concrete V1 verification payload: body `"«32×1»,5,"` (recipient is the
all-zero identity, 5 lamports, empty memo). -/
def wEdDataV1 : List Nat :=
  List.replicate 16 0 ++ wSigner ++ wSig ++
    (List.replicate 32 49 ++ [44, 53, 44])

/-- Concrete V2 verification payload: body `"«32×1»,«32×1»,5,"`. -/
def wEdDataV2 : List Nat :=
  List.replicate 16 0 ++ wSigner ++ wSig ++
    (List.replicate 32 49 ++ [44] ++ List.replicate 32 49 ++ [44, 53, 44])

/-- Decoded form of `wEdDataV1`. -/
def wMsgV1 : MessageV1 := ⟨wSigner, wSig, List.replicate 32 0, 5, ""⟩

/-- Decoded form of `wEdDataV2`. -/
def wMsgV2 : MessageV2 :=
  ⟨wSigner, wSig, List.replicate 32 0, List.replicate 32 0, 5, ""⟩

/-- Concrete bank account; 2000000 lamports exceeds the rent-exempt minimum
for 41 bytes under `wRent` (1176240). -/
def wBank : AccountInfo := ⟨wBankKey, wProgramId, 2000000, wBankData, false⟩

/-- Concrete growth-funding account (a signer with ample balance). -/
def wFund : AccountInfo :=
  ⟨List.replicate 32 11, List.replicate 32 0, 2000000, [], true⟩

/-- Concrete withdrawer (the all-zero identity named in the messages),
co-signing. -/
def wWithdrawer : AccountInfo :=
  ⟨List.replicate 32 0, List.replicate 32 0, 0, [], true⟩

/-- Concrete lamport recipient. -/
def wRecipient : AccountInfo :=
  ⟨List.replicate 32 12, List.replicate 32 0, 0, [], false⟩

/-- Concrete system program account. -/
def wSystemProgram : AccountInfo :=
  ⟨SYSTEM_PROGRAM_ID, List.replicate 32 0, 1, [], false⟩

/-- Concrete token program account. -/
def wTokenProgram : AccountInfo :=
  ⟨SPL_TOKEN_PROGRAM_ID, List.replicate 32 0, 1, [], false⟩

/-- Concrete mint account, at the all-zero mint identity of `wMsgV2`. -/
def wMintAccount : AccountInfo :=
  ⟨List.replicate 32 0, List.replicate 32 0, 1, [], false⟩

/-- Concrete bank associated token account. -/
def wBankAta : AccountInfo := ⟨wAtaKey, List.replicate 32 0, 1, [], false⟩

/-- Concrete destination token account. -/
def wDestToken : AccountInfo :=
  ⟨List.replicate 32 13, List.replicate 32 0, 1, [], false⟩

/-- Bank state whose log already holds `wSig` with `is_ok = true`. -/
def wUsedState : UserBankAccount :=
  ⟨bankAccountDiscriminator, wSigner, 255, 0, [⟨wSig, true, 0, []⟩]⟩

/-- Bank state whose log holds `wSig` only with `is_ok = false`. -/
def wRejectedState : UserBankAccount :=
  ⟨bankAccountDiscriminator, wSigner, 255, 0, [⟨wSig, false, 0, []⟩]⟩

/-- Bank state with an empty log. -/
def wFreshState : UserBankAccount :=
  ⟨bankAccountDiscriminator, wSigner, 255, 0, []⟩

theorem delegated_replay_gate_witness :
    (process_withdraw_lamports_using_ed25519_signature wCpa wRent 0
      wProgramId (some (ED25519_PROGRAM_ID, wEdDataV1)) wBank wFund
      wWithdrawer wRecipient wSystemProgram none wUsedState =
      ⟨.err (.Custom BankError.SignatureAlreadyUsed.code), wUsedState,
        wBank.data.length, wBank.lamports, wFund.lamports,
        wRecipient.lamports⟩) ∧
    ((process_withdraw_lamports_using_ed25519_signature wCpa wRent 0
      wProgramId (some (ED25519_PROGRAM_ID, wEdDataV1)) wBank wFund
      wWithdrawer wRecipient wSystemProgram none wRejectedState).result ≠
      .err (.Custom BankError.SignatureAlreadyUsed.code)) ∧
    (process_withdraw_spl_tokens_using_ed25519_signature wCpa wAta wRent 0
      wProgramId (some (ED25519_PROGRAM_ID, wEdDataV2)) wMintAccount wBank
      wBankAta wFund wWithdrawer wDestToken wTokenProgram wSystemProgram
      none wUsedState 100 0 =
      ⟨.err (.Custom BankError.SignatureAlreadyUsed.code), wUsedState,
        wBank.data.length, wBank.lamports, wFund.lamports, 100, 0⟩) ∧
    ((process_withdraw_spl_tokens_using_ed25519_signature wCpa wAta wRent 0
      wProgramId (some (ED25519_PROGRAM_ID, wEdDataV2)) wMintAccount wBank
      wBankAta wFund wWithdrawer wDestToken wTokenProgram wSystemProgram
      none wRejectedState 100 0).result ≠
      .err (.Custom BankError.SignatureAlreadyUsed.code)) :=
  ⟨delegated_replay_gate.1 wCpa wRent 0 wProgramId wEdDataV1 wMsgV1 wBank
    wFund wWithdrawer wRecipient wSystemProgram none wUsedState (by decide)
    (by decide) (by decide) (by decide) (by decide) (by decide),
   delegated_replay_gate.2.1 wCpa wRent 0 wProgramId wEdDataV1 wMsgV1 wBank
    wFund wWithdrawer wRecipient wSystemProgram none wRejectedState
    (by decide) (by decide) (by decide) (by decide) (by decide) (by decide),
   delegated_replay_gate.2.2.1 wCpa wAta wRent 0 wProgramId wEdDataV2 wMsgV2
    wMintAccount wBank wBankAta wFund wWithdrawer wDestToken wTokenProgram
    wSystemProgram none wUsedState 100 0 (by decide) (by decide) (by decide)
    (by decide) (by decide) (by decide) (by decide) (by decide) (by decide),
   delegated_replay_gate.2.2.2 wCpa wAta wRent 0 wProgramId wEdDataV2 wMsgV2
    wMintAccount wBank wBankAta wFund wWithdrawer wDestToken wTokenProgram
    wSystemProgram none wRejectedState 100 0 (by decide) (by decide)
    (by decide) (by decide) (by decide) (by decide) (by decide) (by decide)
    (by decide)⟩

/-- C3: the direct lamport withdrawal fails hard with
`InsufficientLamportBalance` (moving nothing) whenever the requested amount
exceeds balance minus the rent-exempt minimum for the current size, while
the delegated paths treat an unaffordable request softly: they append an
`is_ok = false` log entry, move no withdrawal funds, return success, and
the growth-funding rent transfer and the storage resize still happen. -/
theorem insufficiency_direct_hard_delegated_soft :
    (∀ (cpa : CpaFn) (rent : Rent) (program_id : Pubkey)
      (authority bank recipient : AccountInfo) (lamports : Nat),
      authority.is_signer = true →
      validate_bank_account cpa program_id authority.key bank = .ok () →
      rent.minimum_balance bank.data.length ≤ bank.lamports →
      bank.lamports < U64MOD →
      lamports > bank.lamports - rent.minimum_balance bank.data.length →
      process_withdraw_lamports cpa rent program_id authority bank
        recipient lamports =
        ⟨.err (.Custom BankError.InsufficientLamportBalance.code),
          bank.lamports, recipient.lamports⟩) ∧
    (∀ (cpa : CpaFn) (rent : Rent) (now : Int) (program_id : Pubkey)
      (ed25519_data : List Nat) (m : MessageV1)
      (bank fund withdrawer recipient system_program : AccountInfo)
      (memo_account : Option AccountInfo) (bank_state : UserBankAccount)
      (entry : VerifiedSignature) (ri : Nat),
      validate_message_v1 ed25519_data = .ok m →
      m.toPubkey = withdrawer.key →
      system_program.key = SYSTEM_PROGRAM_ID →
      withdrawer.is_signer = true →
      validate_bank_account cpa program_id m.signer bank = .ok () →
      (∀ e ∈ bank_state.signatures,
        e.signature = m.signature → e.is_ok = false) →
      entry = ⟨m.signature, false, now, ed25519_data.drop 112⟩ →
      ri = rent.lamports_per_byte_year * entry.borshBytes.length *
        RENT_EXEMPT_YEARS_REQUIRED →
      fund.is_signer = true → ri ≤ fund.lamports →
      rent.minimum_balance bank.data.length ≤ bank.lamports →
      bank.lamports < U64MOD → fund.lamports < U64MOD →
      bank.lamports + ri < U64MOD →
      m.lamports > bank.lamports -
        rent.minimum_balance bank.data.length →
      process_withdraw_lamports_using_ed25519_signature cpa rent now
        program_id (some (ED25519_PROGRAM_ID, ed25519_data)) bank fund
        withdrawer recipient system_program memo_account bank_state =
        ⟨.ok (), { bank_state with
            signatures := bank_state.signatures ++ [entry] },
          bank.data.length + entry.borshBytes.length, bank.lamports + ri,
          fund.lamports - ri, recipient.lamports⟩) ∧
    (∀ (cpa : CpaFn) (ata : AtaFn) (rent : Rent) (now : Int)
      (program_id : Pubkey) (ed25519_data : List Nat) (m : MessageV2)
      (mint_account bank bank_ata fund withdrawer dest_token token_program
        system_program : AccountInfo)
      (memo_account : Option AccountInfo) (bank_state : UserBankAccount)
      (bank_token_amount dest_token_amount : Nat)
      (entry : VerifiedSignature) (ri : Nat),
      validate_message_v2 ed25519_data = .ok m →
      m.toPubkey = withdrawer.key →
      system_program.key = SYSTEM_PROGRAM_ID →
      token_program.key = SPL_TOKEN_PROGRAM_ID →
      withdrawer.is_signer = true →
      validate_bank_account cpa program_id m.signer bank = .ok () →
      mint_account.key = m.mint →
      ata bank.key token_program.key mint_account.key = bank_ata.key →
      (∀ e ∈ bank_state.signatures,
        e.signature = m.signature → e.is_ok = false) →
      entry = ⟨m.signature, false, now, ed25519_data.drop 112⟩ →
      ri = entry.borshBytes.length * rent.lamports_per_byte_year *
        RENT_EXEMPT_YEARS_REQUIRED →
      fund.is_signer = true → ri ≤ fund.lamports →
      fund.lamports < U64MOD → bank.lamports + ri < U64MOD →
      m.amount > bank_token_amount →
      process_withdraw_spl_tokens_using_ed25519_signature cpa ata rent now
        program_id (some (ED25519_PROGRAM_ID, ed25519_data)) mint_account
        bank bank_ata fund withdrawer dest_token token_program
        system_program memo_account bank_state bank_token_amount
        dest_token_amount =
        ⟨.ok (), { bank_state with
            signatures := bank_state.signatures ++ [entry] },
          bank.data.length + entry.borshBytes.length, bank.lamports + ri,
          fund.lamports - ri, bank_token_amount, dest_token_amount⟩) := by
  refine ⟨?_, ?_, ?_⟩
  · intro cpa rent program_id authority bank recipient lamports hsig hval
      hrm hb hun
    unfold process_withdraw_lamports
    rw [if_neg (by simp [hsig])]
    simp only [hval]
    rw [wsub_eq _ _ hrm hb, if_pos hun]
  · intro cpa rent now program_id ed25519_data m bank fund withdrawer
      recipient system_program memo_account bank_state entry ri hmsg hto
      hsys hws hval hclean hentry hri hfs hrif hrm hb hf hbr hun
    subst hentry
    subst hri
    unfold process_withdraw_lamports_using_ed25519_signature
    simp only [hmsg, hto, hsys, hws, hval, ne_eq, not_true_eq_false,
      Bool.true_eq_false, if_false, ite_false, ite_true, not_false_eq_true]
    have hwsub : wsub bank.lamports
        (rent.minimum_balance bank.data.length) =
        bank.lamports - rent.minimum_balance bank.data.length :=
      wsub_eq _ _ hrm hb
    have hdec : decide (¬ m.lamports > bank.lamports -
        rent.minimum_balance bank.data.length) = false := by
      rw [decide_eq_false_iff_not, not_not]; exact hun
    simp only [hwsub, hdec]
    have hadd : ∀ (b : Bool) (t : Int) (msg : List Nat),
        bank_state.add_signature ⟨m.signature, b, t, msg⟩ =
          .ok { bank_state with
            signatures := bank_state.signatures ++ [⟨m.signature, b, t, msg⟩] } :=
      fun b t msg =>
        add_signature_ok_of_not_used _ _ (fun e he hs => hclean e he hs)
    simp only [hadd]
    have h2 : rent.lamports_per_byte_year *
        (VerifiedSignature.mk m.signature false now
          (ed25519_data.drop 112)).borshBytes.length < U64MOD := by
      have hle := Nat.le_mul_of_pos_right
        (rent.lamports_per_byte_year *
          (VerifiedSignature.mk m.signature false now
            (ed25519_data.drop 112)).borshBytes.length)
        (show 0 < RENT_EXEMPT_YEARS_REQUIRED by
          norm_num [RENT_EXEMPT_YEARS_REQUIRED])
      omega
    have h3 : rent.lamports_per_byte_year *
        (VerifiedSignature.mk m.signature false now
          (ed25519_data.drop 112)).borshBytes.length *
        RENT_EXEMPT_YEARS_REQUIRED < U64MOD := lt_of_le_of_lt hrif hf
    rw [wmul_eq _ _ h2, wmul_eq _ _ h3]
    rw [if_neg (by
      simp only [hfs, Bool.true_eq_false, false_or, not_lt]; omega)]
    rw [wadd_eq _ _ hbr, wsub_eq _ _ hrif hf]
    simp
  · intro cpa ata rent now program_id ed25519_data m mint_account bank
      bank_ata fund withdrawer dest_token token_program system_program
      memo_account bank_state bank_token_amount dest_token_amount entry ri
      hmsg hto hsys htok hws hval hmint hata hclean hentry hri hfs hrif hf
      hbr hun
    subst hentry
    subst hri
    rw [htok, hmint] at hata
    unfold process_withdraw_spl_tokens_using_ed25519_signature
    simp only [hmsg, hto, hsys, htok, hws, hval, hmint, hata, ne_eq,
      not_true_eq_false, Bool.true_eq_false, if_false, ite_false, ite_true,
      not_false_eq_true]
    have hdec : decide (¬ m.amount > bank_token_amount) = false := by
      rw [decide_eq_false_iff_not, not_not]; exact hun
    simp only [hdec]
    have hadd : ∀ (b : Bool) (t : Int) (msg : List Nat),
        bank_state.add_signature ⟨m.signature, b, t, msg⟩ =
          .ok { bank_state with
            signatures := bank_state.signatures ++ [⟨m.signature, b, t, msg⟩] } :=
      fun b t msg =>
        add_signature_ok_of_not_used _ _ (fun e he hs => hclean e he hs)
    simp only [hadd]
    have h2 : (VerifiedSignature.mk m.signature false now
        (ed25519_data.drop 112)).borshBytes.length *
        rent.lamports_per_byte_year < U64MOD := by
      have hle := Nat.le_mul_of_pos_right
        ((VerifiedSignature.mk m.signature false now
          (ed25519_data.drop 112)).borshBytes.length *
          rent.lamports_per_byte_year)
        (show 0 < RENT_EXEMPT_YEARS_REQUIRED by
          norm_num [RENT_EXEMPT_YEARS_REQUIRED])
      omega
    have h3 : (VerifiedSignature.mk m.signature false now
        (ed25519_data.drop 112)).borshBytes.length *
        rent.lamports_per_byte_year *
        RENT_EXEMPT_YEARS_REQUIRED < U64MOD := lt_of_le_of_lt hrif hf
    rw [wmul_eq _ _ h2, wmul_eq _ _ h3]
    rw [if_neg (by
      simp only [hfs, Bool.true_eq_false, false_or, not_lt]; omega)]
    rw [wadd_eq _ _ hbr, wsub_eq _ _ hrif hf]
    simp

/-- Bank account holding exactly the rent-exempt minimum for its 41 bytes
under `wRent` (available balance zero). -/
def wPoorBank : AccountInfo := ⟨wBankKey, wProgramId, 1176240, wBankData, false⟩

/-- Concrete signing authority for the direct withdrawal. -/
def wAuthority : AccountInfo := ⟨wSigner, List.replicate 32 0, 0, [], true⟩

/-- The rejected (`is_ok = false`) entry the delegated native path appends
for `wEdDataV1`. -/
def wEntryV1False : VerifiedSignature :=
  ⟨wSig, false, 0, List.replicate 32 49 ++ [44, 53, 44]⟩

/-- The rejected (`is_ok = false`) entry the delegated token path appends
for `wEdDataV2`. -/
def wEntryV2False : VerifiedSignature :=
  ⟨wSig, false, 0,
    List.replicate 32 49 ++ [44] ++ List.replicate 32 49 ++ [44, 53, 44]⟩

theorem insufficiency_direct_hard_delegated_soft_witness :
    (process_withdraw_lamports wCpa wRent wProgramId wAuthority wPoorBank
      wRecipient 5 =
      ⟨.err (.Custom BankError.InsufficientLamportBalance.code),
        wPoorBank.lamports, wRecipient.lamports⟩) ∧
    (process_withdraw_lamports_using_ed25519_signature wCpa wRent 0
      wProgramId (some (ED25519_PROGRAM_ID, wEdDataV1)) wPoorBank wFund
      wWithdrawer wRecipient wSystemProgram none wFreshState =
      ⟨.ok (), { wFreshState with
          signatures := wFreshState.signatures ++ [wEntryV1False] },
        wPoorBank.data.length + wEntryV1False.borshBytes.length,
        wPoorBank.lamports + 779520, wFund.lamports - 779520,
        wRecipient.lamports⟩) ∧
    (process_withdraw_spl_tokens_using_ed25519_signature wCpa wAta wRent 0
      wProgramId (some (ED25519_PROGRAM_ID, wEdDataV2)) wMintAccount wBank
      wBankAta wFund wWithdrawer wDestToken wTokenProgram wSystemProgram
      none wFreshState 3 0 =
      ⟨.ok (), { wFreshState with
          signatures := wFreshState.signatures ++ [wEntryV2False] },
        wBank.data.length + wEntryV2False.borshBytes.length,
        wBank.lamports + 1009200, wFund.lamports - 1009200, 3, 0⟩) :=
  ⟨insufficiency_direct_hard_delegated_soft.1 wCpa wRent wProgramId
    wAuthority wPoorBank wRecipient 5 (by decide) (by decide) (by decide)
    (by decide) (by decide),
   insufficiency_direct_hard_delegated_soft.2.1 wCpa wRent 0 wProgramId
    wEdDataV1 wMsgV1 wPoorBank wFund wWithdrawer wRecipient wSystemProgram
    none wFreshState wEntryV1False 779520 (by decide) (by decide)
    (by decide) (by decide) (by decide) (by decide) (by decide) (by decide)
    (by decide) (by decide) (by decide) (by decide) (by decide) (by decide)
    (by decide),
   insufficiency_direct_hard_delegated_soft.2.2 wCpa wAta wRent 0
    wProgramId wEdDataV2 wMsgV2 wMintAccount wBank wBankAta wFund
    wWithdrawer wDestToken wTokenProgram wSystemProgram none wFreshState 3 0
    wEntryV2False 1009200 (by decide) (by decide) (by decide) (by decide)
    (by decide) (by decide) (by decide) (by decide) (by decide) (by decide)
    (by decide) (by decide) (by decide) (by decide) (by decide)
    (by decide)⟩

/-- C7: when the delegated native withdrawal reaches the affordability
step (all earlier guards pass, the signature is not replay-blocked, and the
growth funding succeeds), the log entry it records carries
`is_ok = true` exactly when the requested amount is at most the account's
lamports minus the rent-exempt minimum for its current data size, and the
instruction succeeds either way. -/
theorem delegated_native_is_ok_iff_affordable (cpa : CpaFn) (rent : Rent) (now : Int)
    (program_id : Pubkey) (ed25519_data : List Nat) (m : MessageV1)
    (bank fund withdrawer recipient system_program : AccountInfo)
    (memo_account : Option AccountInfo) (bank_state : UserBankAccount)
    (ri : Nat)
    (hmsg : validate_message_v1 ed25519_data = .ok m)
    (hto : m.toPubkey = withdrawer.key)
    (hsys : system_program.key = SYSTEM_PROGRAM_ID)
    (hws : withdrawer.is_signer = true)
    (hval : validate_bank_account cpa program_id m.signer bank = .ok ())
    (hclean : ∀ e ∈ bank_state.signatures,
      e.signature = m.signature → e.is_ok = false)
    (hri : ri = rent.lamports_per_byte_year *
      (m.signature.length + 13 + (ed25519_data.drop 112).length) *
      RENT_EXEMPT_YEARS_REQUIRED)
    (hfs : fund.is_signer = true) (hrif : ri ≤ fund.lamports)
    (hrm : rent.minimum_balance bank.data.length ≤ bank.lamports)
    (hb : bank.lamports < U64MOD) (hf : fund.lamports < U64MOD)
    (hmemo : m.memo.length > 0 →
      ∃ a, memo_account = some a ∧ a.key = MEMO_PROGRAM_ID) :
    ((process_withdraw_lamports_using_ed25519_signature cpa rent now
      program_id (some (ED25519_PROGRAM_ID, ed25519_data)) bank fund
      withdrawer recipient system_program memo_account
      bank_state).bank_state.signatures =
      bank_state.signatures ++
        [⟨m.signature,
          decide (m.lamports ≤ bank.lamports -
            rent.minimum_balance bank.data.length), now,
          ed25519_data.drop 112⟩]) ∧
    ((process_withdraw_lamports_using_ed25519_signature cpa rent now
      program_id (some (ED25519_PROGRAM_ID, ed25519_data)) bank fund
      withdrawer recipient system_program memo_account
      bank_state).result = .ok ()) := by
  subst hri
  unfold process_withdraw_lamports_using_ed25519_signature
  simp only [hmsg, hto, hsys, hws, hval, ne_eq, not_true_eq_false,
    Bool.true_eq_false, if_false, ite_false, ite_true, not_false_eq_true]
  have hwsub : wsub bank.lamports
      (rent.minimum_balance bank.data.length) =
      bank.lamports - rent.minimum_balance bank.data.length :=
    wsub_eq _ _ hrm hb
  simp only [hwsub]
  have hadd : ∀ (b : Bool) (t : Int) (msg : List Nat),
      bank_state.add_signature ⟨m.signature, b, t, msg⟩ =
        .ok { bank_state with
          signatures := bank_state.signatures ++ [⟨m.signature, b, t, msg⟩] } :=
    fun b t msg =>
      add_signature_ok_of_not_used _ _ (fun e he hs => hclean e he hs)
  simp only [hadd, borshBytes_length]
  have h2 : rent.lamports_per_byte_year *
      (m.signature.length + 13 + (ed25519_data.drop 112).length) <
      U64MOD := by
    have hle := Nat.le_mul_of_pos_right
      (rent.lamports_per_byte_year *
        (m.signature.length + 13 + (ed25519_data.drop 112).length))
      (show 0 < RENT_EXEMPT_YEARS_REQUIRED by
        norm_num [RENT_EXEMPT_YEARS_REQUIRED])
    omega
  have h3 : rent.lamports_per_byte_year *
      (m.signature.length + 13 + (ed25519_data.drop 112).length) *
      RENT_EXEMPT_YEARS_REQUIRED < U64MOD := lt_of_le_of_lt hrif hf
  rw [wmul_eq _ _ h2, wmul_eq _ _ h3]
  rw [if_neg (by
    simp only [hfs, Bool.true_eq_false, false_or, not_lt]; omega)]
  by_cases haff : m.lamports ≤ bank.lamports -
      rent.minimum_balance bank.data.length
  · have hdec : decide (¬ m.lamports > bank.lamports -
        rent.minimum_balance bank.data.length) = true :=
      decide_eq_true (not_lt.mpr haff)
    simp only [hdec, decide_eq_true haff, Bool.true_eq_false, if_false]
    by_cases hm : m.memo.length > 0
    · obtain ⟨a, ha, hk⟩ := hmemo hm
      subst ha
      simp only [if_pos hm, hk, ne_eq, not_true_eq_false, if_false,
        ite_false, ite_true, not_false_eq_true]
      simp
    · simp only [if_neg hm]
      simp
  · have hdec : decide (¬ m.lamports > bank.lamports -
        rent.minimum_balance bank.data.length) = false := by
      rw [decide_eq_false_iff_not, not_not]; omega
    simp only [hdec, decide_eq_false (by omega : ¬ m.lamports ≤
      bank.lamports - rent.minimum_balance bank.data.length)]
    simp

theorem delegated_native_is_ok_iff_affordable_witness :
    ((process_withdraw_lamports_using_ed25519_signature wCpa wRent 0
      wProgramId (some (ED25519_PROGRAM_ID, wEdDataV1)) wBank wFund
      wWithdrawer wRecipient wSystemProgram none
      wFreshState).bank_state.signatures =
      wFreshState.signatures ++
        [⟨wSig, true, 0, List.replicate 32 49 ++ [44, 53, 44]⟩]) ∧
    ((process_withdraw_lamports_using_ed25519_signature wCpa wRent 0
      wProgramId (some (ED25519_PROGRAM_ID, wEdDataV1)) wBank wFund
      wWithdrawer wRecipient wSystemProgram none wFreshState).result =
      .ok ()) := by
  have h := delegated_native_is_ok_iff_affordable wCpa wRent 0 wProgramId
    wEdDataV1 wMsgV1 wBank wFund wWithdrawer wRecipient wSystemProgram none
    wFreshState 779520 (by decide) (by decide) (by decide) (by decide)
    (by decide) (by decide) (by decide) (by decide) (by decide) (by decide)
    (by decide) (by decide) (fun hm => absurd hm (by decide))
  exact ⟨h.1, h.2⟩

/-- C9: whenever a delegated withdrawal (either path) appends its log
entry, the lamports transferred from the growth-funding account equal the
serialized byte size of the new entry times `lamports_per_byte_year` times
the 2-year horizon `RENT_EXEMPT_YEARS_REQUIRED`, exactly, and the bank
account's storage grows by exactly that serialized size; `sz` is that
serialized size whichever outcome flag the entry carries. -/
theorem delegated_growth_rent_exact :
    (∀ (cpa : CpaFn) (rent : Rent) (now : Int) (program_id : Pubkey)
      (ed25519_data : List Nat) (m : MessageV1)
      (bank fund withdrawer recipient system_program : AccountInfo)
      (memo_account : Option AccountInfo) (bank_state : UserBankAccount)
      (sz ri : Nat),
      validate_message_v1 ed25519_data = .ok m →
      m.toPubkey = withdrawer.key →
      system_program.key = SYSTEM_PROGRAM_ID →
      withdrawer.is_signer = true →
      validate_bank_account cpa program_id m.signer bank = .ok () →
      (∀ e ∈ bank_state.signatures,
        e.signature = m.signature → e.is_ok = false) →
      sz = m.signature.length + 13 + (ed25519_data.drop 112).length →
      ri = rent.lamports_per_byte_year * sz * RENT_EXEMPT_YEARS_REQUIRED →
      fund.is_signer = true → ri ≤ fund.lamports →
      rent.minimum_balance bank.data.length ≤ bank.lamports →
      bank.lamports < U64MOD → fund.lamports < U64MOD →
      (m.memo.length > 0 →
        ∃ a, memo_account = some a ∧ a.key = MEMO_PROGRAM_ID) →
      (∀ b : Bool, (VerifiedSignature.mk m.signature b now
        (ed25519_data.drop 112)).borshBytes.length = sz) ∧
      (process_withdraw_lamports_using_ed25519_signature cpa rent now
        program_id (some (ED25519_PROGRAM_ID, ed25519_data)) bank fund
        withdrawer recipient system_program memo_account
        bank_state).bank_data_len = bank.data.length + sz ∧
      (process_withdraw_lamports_using_ed25519_signature cpa rent now
        program_id (some (ED25519_PROGRAM_ID, ed25519_data)) bank fund
        withdrawer recipient system_program memo_account
        bank_state).fund_lamports = fund.lamports - ri) ∧
    (∀ (cpa : CpaFn) (ata : AtaFn) (rent : Rent) (now : Int)
      (program_id : Pubkey) (ed25519_data : List Nat) (m : MessageV2)
      (mint_account bank bank_ata fund withdrawer dest_token token_program
        system_program : AccountInfo)
      (memo_account : Option AccountInfo) (bank_state : UserBankAccount)
      (bank_token_amount dest_token_amount : Nat) (sz ri : Nat),
      validate_message_v2 ed25519_data = .ok m →
      m.toPubkey = withdrawer.key →
      system_program.key = SYSTEM_PROGRAM_ID →
      token_program.key = SPL_TOKEN_PROGRAM_ID →
      withdrawer.is_signer = true →
      validate_bank_account cpa program_id m.signer bank = .ok () →
      mint_account.key = m.mint →
      ata bank.key token_program.key mint_account.key = bank_ata.key →
      (∀ e ∈ bank_state.signatures,
        e.signature = m.signature → e.is_ok = false) →
      sz = m.signature.length + 13 + (ed25519_data.drop 112).length →
      ri = sz * rent.lamports_per_byte_year * RENT_EXEMPT_YEARS_REQUIRED →
      fund.is_signer = true → ri ≤ fund.lamports →
      fund.lamports < U64MOD →
      (m.memo.length > 0 →
        ∃ a, memo_account = some a ∧ a.key = MEMO_PROGRAM_ID) →
      (∀ b : Bool, (VerifiedSignature.mk m.signature b now
        (ed25519_data.drop 112)).borshBytes.length = sz) ∧
      (process_withdraw_spl_tokens_using_ed25519_signature cpa ata rent now
        program_id (some (ED25519_PROGRAM_ID, ed25519_data)) mint_account
        bank bank_ata fund withdrawer dest_token token_program
        system_program memo_account bank_state bank_token_amount
        dest_token_amount).bank_data_len = bank.data.length + sz ∧
      (process_withdraw_spl_tokens_using_ed25519_signature cpa ata rent now
        program_id (some (ED25519_PROGRAM_ID, ed25519_data)) mint_account
        bank bank_ata fund withdrawer dest_token token_program
        system_program memo_account bank_state bank_token_amount
        dest_token_amount).fund_lamports = fund.lamports - ri) := by
  constructor
  · intro cpa rent now program_id ed25519_data m bank fund withdrawer
      recipient system_program memo_account bank_state sz ri hmsg hto hsys
      hws hval hclean hsz hri hfs hrif hrm hb hf hmemo
    subst hsz
    subst hri
    refine ⟨fun b => by rw [borshBytes_length], ?_⟩
    unfold process_withdraw_lamports_using_ed25519_signature
    simp only [hmsg, hto, hsys, hws, hval, ne_eq, not_true_eq_false,
      Bool.true_eq_false, if_false, ite_false, ite_true, not_false_eq_true]
    have hadd : ∀ (b : Bool) (t : Int) (msg : List Nat),
        bank_state.add_signature ⟨m.signature, b, t, msg⟩ =
          .ok { bank_state with
            signatures := bank_state.signatures ++ [⟨m.signature, b, t, msg⟩] } :=
      fun b t msg =>
        add_signature_ok_of_not_used _ _ (fun e he hs => hclean e he hs)
    simp only [hadd, borshBytes_length]
    have h2 : rent.lamports_per_byte_year *
        (m.signature.length + 13 + (ed25519_data.drop 112).length) <
        U64MOD := by
      have hle := Nat.le_mul_of_pos_right
        (rent.lamports_per_byte_year *
          (m.signature.length + 13 + (ed25519_data.drop 112).length))
        (show 0 < RENT_EXEMPT_YEARS_REQUIRED by
          norm_num [RENT_EXEMPT_YEARS_REQUIRED])
      omega
    have h3 : rent.lamports_per_byte_year *
        (m.signature.length + 13 + (ed25519_data.drop 112).length) *
        RENT_EXEMPT_YEARS_REQUIRED < U64MOD := lt_of_le_of_lt hrif hf
    rw [wmul_eq _ _ h2, wmul_eq _ _ h3]
    rw [if_neg (by
      simp only [hfs, Bool.true_eq_false, false_or, not_lt]; omega)]
    rw [wsub_eq _ _ hrif hf]
    by_cases haff : m.lamports > wsub bank.lamports
        (rent.minimum_balance bank.data.length)
    · have hdec : decide (¬ m.lamports > wsub bank.lamports
          (rent.minimum_balance bank.data.length)) = false := by
        rw [decide_eq_false_iff_not, not_not]; exact haff
      simp only [hdec]
      simp
    · have hdec : decide (¬ m.lamports > wsub bank.lamports
          (rent.minimum_balance bank.data.length)) = true :=
        decide_eq_true haff
      simp only [hdec, Bool.true_eq_false, if_false]
      by_cases hm : m.memo.length > 0
      · obtain ⟨a, ha, hk⟩ := hmemo hm
        subst ha
        simp only [if_pos hm, hk, ne_eq, not_true_eq_false, if_false,
          ite_false, ite_true, not_false_eq_true]
        simp
      · simp only [if_neg hm]
        simp
  · intro cpa ata rent now program_id ed25519_data m mint_account bank
      bank_ata fund withdrawer dest_token token_program system_program
      memo_account bank_state bank_token_amount dest_token_amount sz ri
      hmsg hto hsys htok hws hval hmint hata hclean hsz hri hfs hrif hf
      hmemo
    subst hsz
    subst hri
    rw [htok, hmint] at hata
    refine ⟨fun b => by rw [borshBytes_length], ?_⟩
    unfold process_withdraw_spl_tokens_using_ed25519_signature
    simp only [hmsg, hto, hsys, htok, hws, hval, hmint, hata, ne_eq,
      not_true_eq_false, Bool.true_eq_false, if_false, ite_false, ite_true,
      not_false_eq_true]
    have hadd : ∀ (b : Bool) (t : Int) (msg : List Nat),
        bank_state.add_signature ⟨m.signature, b, t, msg⟩ =
          .ok { bank_state with
            signatures := bank_state.signatures ++ [⟨m.signature, b, t, msg⟩] } :=
      fun b t msg =>
        add_signature_ok_of_not_used _ _ (fun e he hs => hclean e he hs)
    simp only [hadd, borshBytes_length]
    have h2 : (m.signature.length + 13 + (ed25519_data.drop 112).length) *
        rent.lamports_per_byte_year < U64MOD := by
      have hle := Nat.le_mul_of_pos_right
        ((m.signature.length + 13 + (ed25519_data.drop 112).length) *
          rent.lamports_per_byte_year)
        (show 0 < RENT_EXEMPT_YEARS_REQUIRED by
          norm_num [RENT_EXEMPT_YEARS_REQUIRED])
      omega
    have h3 : (m.signature.length + 13 + (ed25519_data.drop 112).length) *
        rent.lamports_per_byte_year *
        RENT_EXEMPT_YEARS_REQUIRED < U64MOD := lt_of_le_of_lt hrif hf
    rw [wmul_eq _ _ h2, wmul_eq _ _ h3]
    rw [if_neg (by
      simp only [hfs, Bool.true_eq_false, false_or, not_lt]; omega)]
    rw [wsub_eq _ _ hrif hf]
    by_cases haff : m.amount > bank_token_amount
    · have hdec : decide (¬ m.amount > bank_token_amount) = false := by
        rw [decide_eq_false_iff_not, not_not]; exact haff
      simp only [hdec]
      simp
    · have hdec : decide (¬ m.amount > bank_token_amount) = true :=
        decide_eq_true haff
      simp only [hdec, Bool.true_eq_false, if_false]
      by_cases hm : m.memo.length > 0
      · obtain ⟨a, ha, hk⟩ := hmemo hm
        subst ha
        simp only [if_pos hm, hk, ne_eq, not_true_eq_false, if_false,
          ite_false, ite_true, not_false_eq_true]
        simp
      · simp only [if_neg hm]
        simp

theorem delegated_growth_rent_exact_witness :
    ((process_withdraw_lamports_using_ed25519_signature wCpa wRent 0
      wProgramId (some (ED25519_PROGRAM_ID, wEdDataV1)) wBank wFund
      wWithdrawer wRecipient wSystemProgram none
      wFreshState).bank_data_len = wBank.data.length + 112) ∧
    ((process_withdraw_lamports_using_ed25519_signature wCpa wRent 0
      wProgramId (some (ED25519_PROGRAM_ID, wEdDataV1)) wBank wFund
      wWithdrawer wRecipient wSystemProgram none
      wFreshState).fund_lamports = wFund.lamports - 779520) ∧
    ((process_withdraw_spl_tokens_using_ed25519_signature wCpa wAta wRent 0
      wProgramId (some (ED25519_PROGRAM_ID, wEdDataV2)) wMintAccount wBank
      wBankAta wFund wWithdrawer wDestToken wTokenProgram wSystemProgram
      none wFreshState 100 0).bank_data_len = wBank.data.length + 145) ∧
    ((process_withdraw_spl_tokens_using_ed25519_signature wCpa wAta wRent 0
      wProgramId (some (ED25519_PROGRAM_ID, wEdDataV2)) wMintAccount wBank
      wBankAta wFund wWithdrawer wDestToken wTokenProgram wSystemProgram
      none wFreshState 100 0).fund_lamports = wFund.lamports - 1009200) := by
  have h1 := delegated_growth_rent_exact.1 wCpa wRent 0 wProgramId
    wEdDataV1 wMsgV1 wBank wFund wWithdrawer wRecipient wSystemProgram none
    wFreshState 112 779520 (by decide) (by decide) (by decide) (by decide)
    (by decide) (by decide) (by decide) (by decide) (by decide) (by decide)
    (by decide) (by decide) (by decide) (fun hm => absurd hm (by decide))
  have h2 := delegated_growth_rent_exact.2 wCpa wAta wRent 0 wProgramId
    wEdDataV2 wMsgV2 wMintAccount wBank wBankAta wFund wWithdrawer
    wDestToken wTokenProgram wSystemProgram none wFreshState 100 0 145
    1009200 (by decide) (by decide) (by decide) (by decide) (by decide)
    (by decide) (by decide) (by decide) (by decide) (by decide) (by decide)
    (by decide) (by decide) (by decide) (fun hm => absurd hm (by decide))
  exact ⟨h1.2.1, h1.2.2, h2.2.1, h2.2.2⟩

/-- C8: on an account whose data holds at least the 41 bytes through the
stored bump, the Account Validator rejects a foreign owner with
`InvalidAccountOwner` first, then a wrong 8-byte discriminator with
`InvalidAccountData`, then a mismatch between the account's key and the
address recomputed from the claimed authority and the stored bump byte with
`InvalidSeeds`, and otherwise succeeds; it performs no mutation — in
particular a validation failure leaves the direct withdrawal's balances
untouched. -/
theorem account_validator_check_order (cpa : CpaFn)
    (program_id authority : Pubkey) (acc : AccountInfo)
    (hdata : 41 ≤ acc.data.length) :
    (acc.owner ≠ program_id →
      validate_bank_account cpa program_id authority acc =
        .err .InvalidAccountOwner) ∧
    (acc.owner = program_id →
      acc.data.take 8 ≠ bankAccountDiscriminator →
      validate_bank_account cpa program_id authority acc =
        .err .InvalidAccountData) ∧
    (acc.owner = program_id →
      acc.data.take 8 = bankAccountDiscriminator →
      acc.key ≠ cpa authority (acc.data.getD 40 0) program_id →
      validate_bank_account cpa program_id authority acc =
        .err .InvalidSeeds) ∧
    (acc.owner = program_id →
      acc.data.take 8 = bankAccountDiscriminator →
      acc.key = cpa authority (acc.data.getD 40 0) program_id →
      validate_bank_account cpa program_id authority acc = .ok ()) ∧
    (∀ (rent : Rent) (authority_acc recipient : AccountInfo)
      (lamports : Nat) (e : ProgramError),
      authority_acc.is_signer = true →
      validate_bank_account cpa program_id authority_acc.key acc =
        .err e →
      process_withdraw_lamports cpa rent program_id authority_acc acc
        recipient lamports = ⟨.err e, acc.lamports, recipient.lamports⟩) := by
  have h8 : ¬ acc.data.length < 8 := by omega
  have h40 : ¬ acc.data.length ≤ 40 := by omega
  refine ⟨?_, ?_, ?_, ?_, ?_⟩
  · intro ho
    unfold validate_bank_account
    rw [if_pos ho]
  · intro ho hd
    unfold validate_bank_account
    rw [if_neg (by simp [ho]), if_neg h8, if_pos hd]
  · intro ho hd hk
    unfold validate_bank_account
    rw [if_neg (by simp [ho]), if_neg h8, if_neg (by simp [hd]),
      if_neg h40, if_pos hk]
  · intro ho hd hk
    unfold validate_bank_account
    rw [if_neg (by simp [ho]), if_neg h8, if_neg (by simp [hd]),
      if_neg h40, if_neg (by simp [hk])]
  · intro rent authority_acc recipient lamports e hsig hval
    unfold process_withdraw_lamports
    rw [if_neg (by simp [hsig])]
    simp only [hval]

theorem account_validator_check_order_witness :
    (validate_bank_account wCpa wProgramId wSigner
      ⟨wBankKey, List.replicate 32 9, 0, wBankData, false⟩ =
      .err .InvalidAccountOwner) ∧
    (validate_bank_account wCpa wProgramId wSigner wBank = .ok ()) ∧
    (process_withdraw_lamports wCpa wRent wProgramId wAuthority
      ⟨wBankKey, List.replicate 32 9, 0, wBankData, false⟩ wRecipient 5 =
      ⟨.err .InvalidAccountOwner, 0, wRecipient.lamports⟩) :=
  ⟨(account_validator_check_order wCpa wProgramId wSigner
      ⟨wBankKey, List.replicate 32 9, 0, wBankData, false⟩
      (by decide)).1 (by decide),
   (account_validator_check_order wCpa wProgramId wSigner wBank
      (by decide)).2.2.2.1 (by decide) (by decide) (by decide),
   (account_validator_check_order wCpa wProgramId wSigner
      ⟨wBankKey, List.replicate 32 9, 0, wBankData, false⟩
      (by decide)).2.2.2.2 wRent wAuthority wRecipient 5
      .InvalidAccountOwner (by decide)
      ((account_validator_check_order wCpa wProgramId wAuthority.key
        ⟨wBankKey, List.replicate 32 9, 0, wBankData, false⟩
        (by decide)).1 (by decide))⟩
